import Mathlib

/-!
Verification of the navigation and viewport engine of the `tasd-cli` TASD
viewer (`src/app.rs`, `src/ui/components.rs`).

The Rust code is shallowly embedded: `usize` values are modelled as `Nat`
(`saturating_sub` is truncated `Nat` subtraction, `saturating_add` is plain
`Nat` addition — the cap at `2^64 - 1` is invisible through the clamping
`jump_to`), `isize` as `Int`, and `Vec<u8>` / `String` as `List Nat` /
`List Char`.  Where the source performs *unchecked* machine arithmetic that
can actually overflow on reachable states, the model is checked and returns
`Option`, `none` standing for the arithmetic-overflow panic of a Rust debug
build: the subtraction in `cursor_to_bottom` (`src/app.rs:255`), the
multiply-add of the repeat-count buffer (`src/app.rs:262`), the page-size
products and the `isize` negations of the motion arms.  The reinterpreting
cast `count as isize`, which never panics but turns counts above
`isize::MAX` negative, is modelled by `usizeAsIsize`.  Event handlers
therefore return `Option App`; every branch that cannot panic returns
`some`.
-/

/-- One decoded TASD record (`tasd_lib::Packet`), restricted to the fields the
navigation core reads: the port of `InputChunk` / `InputMoment` /
`PortController`, the byte payload of `InputChunk`, and the frame count of
`TotalFrames`.  Every other record kind is collapsed into `other`. -/
inductive Packet where
  | inputChunk (port : Nat) (inputs : List Nat)
  | inputMoment (port : Nat)
  | portController (port : Nat)
  | totalFrames (frames : Nat)
  | other
deriving DecidableEq, Repr

/-- Port carried by a packet, if any (the three port-bearing arms of the
`match` in `App::detect_ports`, `src/app.rs:144-157`). -/
def packet_port : Packet → Option Nat
  | Packet.inputChunk port _ => some port
  | Packet.inputMoment port => some port
  | Packet.portController port => some port
  | _ => none

/-- `App::detect_ports` (`src/app.rs:141-168`): collect the ports of all
port-bearing packets into a set (`HashSet`), list it sorted ascending, and
default to `[1]` when the set is empty. -/
def detect_ports (packets : List Packet) : List Nat :=
  let ports := (packets.filterMap packet_port).toFinset.sort (· ≤ ·)
  if ports = [] then [1] else ports

/-- Frame count of the first `TotalFrames` packet, if any (the first loop of
`App::count_inputs`, `src/app.rs:173-177`). -/
def first_total_frames : List Packet → Option Nat
  | [] => none
  | Packet.totalFrames n :: _ => some n
  | _ :: rest => first_total_frames rest

/-- Summed byte length of the `InputChunk` packets of one port (inner loop of
`App::count_inputs`, `src/app.rs:185-192`). -/
def inputs_for_port (packets : List Packet) (port : Nat) : Nat :=
  packets.foldl
    (fun acc p =>
      match p with
      | Packet.inputChunk q ins => if q = port then acc + ins.length else acc
      | _ => acc)
    0

/-- Maximum of `inputs_for_port` over ports 1..=4 (`src/app.rs:182-195`). -/
def max_chunk_inputs (packets : List Packet) : Nat :=
  [1, 2, 3, 4].foldl (fun m port => max m (inputs_for_port packets port)) 0

/-- Number of `InputMoment` packets (`src/app.rs:203-205`). -/
def moment_count (packets : List Packet) : Nat :=
  (packets.filter fun p =>
    match p with
    | Packet.inputMoment _ => true
    | _ => false).length

/-- `App::count_inputs` (`src/app.rs:171-206`): the first `TotalFrames`
packet wins; otherwise the port-1..4 chunk maximum when positive; otherwise
the `InputMoment` count. -/
def count_inputs (packets : List Packet) : Nat :=
  match first_total_frames packets with
  | some n => n
  | none =>
    let max_inputs := max_chunk_inputs packets
    if max_inputs > 0 then max_inputs else moment_count packets

/-- `collect_port_inputs` (`src/ui/components.rs:224-236`): concatenate, in
record order, the byte payloads of the `InputChunk` packets of one port. -/
def collect_port_inputs (packets : List Packet) (port : Nat) : List Nat :=
  packets.foldl
    (fun acc p =>
      match p with
      | Packet.inputChunk q ins => if q = port then acc ++ ins else acc
      | _ => acc)
    []

/-- `InputCursor` (`src/app.rs:24-29`). -/
structure InputCursor where
  input_index : Nat
  total_inputs : Nat
deriving DecidableEq, Repr

/-- `InputCursor::new` (`src/app.rs:32-37`). -/
def InputCursor.new : InputCursor :=
  { input_index := 0, total_inputs := 0 }

/-- `InputCursor::next` (`src/app.rs:39-43`); `saturating_sub(1)` is `Nat`
subtraction. -/
def InputCursor.next (c : InputCursor) : InputCursor :=
  if c.input_index < c.total_inputs - 1 then
    { c with input_index := c.input_index + 1 }
  else c

/-- `InputCursor::prev` (`src/app.rs:45-49`). -/
def InputCursor.prev (c : InputCursor) : InputCursor :=
  if c.input_index > 0 then
    { c with input_index := c.input_index - 1 }
  else c

/-- `InputCursor::jump_to` (`src/app.rs:51-57`). -/
def InputCursor.jump_to (c : InputCursor) (index : Nat) : InputCursor :=
  if index < c.total_inputs then
    { c with input_index := index }
  else if c.total_inputs > 0 then
    { c with input_index := c.total_inputs - 1 }
  else c

/-- `InputCursor::move_by` (`src/app.rs:60-68`); `saturating_add` /
`saturating_sub` on `usize` become `Nat` addition / truncated subtraction. -/
def InputCursor.move_by (c : InputCursor) (steps : Int) : InputCursor :=
  if steps > 0 then
    c.jump_to (c.input_index + steps.toNat)
  else if steps < 0 then
    c.jump_to (c.input_index - (-steps).toNat)
  else c

/-- `AppMode` (`src/app.rs:11-20`). -/
inductive AppMode where
  | normal
  | input
  | help
  | command
deriving DecidableEq, Repr

/-- `DisplaySettings` (`src/app.rs:96-103`); `highlight_color` is a pure
presentation constant never read or written by the navigation core and is
omitted. -/
structure DisplaySettings where
  show_debug : Bool
  max_visible_inputs : Nat
deriving DecidableEq, Repr

/-- `DisplaySettings::new` (`src/app.rs:106-112`). -/
def DisplaySettings.new : DisplaySettings :=
  { show_debug := false, max_visible_inputs := 20 }

/-- `App` (`src/app.rs:72-93`); `file_path` is opaque to the navigation core
and omitted. -/
structure App where
  tasd : List Packet
  mode : AppMode
  exit : Bool
  cursor : InputCursor
  input_window_start : Nat
  display : DisplaySettings
  ports : List Nat
  number_buffer : Option Nat
  command_buffer : List Char
deriving DecidableEq, Repr

/-- `App::new` (`src/app.rs:116-138`). -/
def App.new (tasd : List Packet) : App :=
  { tasd := tasd
    mode := AppMode.normal
    exit := false
    cursor := { InputCursor.new with total_inputs := count_inputs tasd }
    input_window_start := 0
    display := DisplaySettings.new
    ports := detect_ports tasd
    number_buffer := none
    command_buffer := [] }

/-- Window-start computation of `App::update_input_window`
(`src/app.rs:209-224`) as a function of the cursor position, the total,
the current window start and the height. -/
def reconcileWindow (pos total ws h : Nat) : Nat :=
  let ws1 :=
    if pos < ws then pos
    else if pos ≥ ws + h then pos - h + 1
    else ws
  let max_start := total - h
  if ws1 > max_start then max_start else ws1

/-- `App::update_input_window` (`src/app.rs:209-224`). -/
def App.update_input_window (a : App) : App :=
  { a with
    input_window_start :=
      reconcileWindow a.cursor.input_index a.cursor.total_inputs
        a.input_window_start a.display.max_visible_inputs }

/-- Window-start computation of `App::center_cursor` (`src/app.rs:227-240`). -/
def centerWindow (pos total h : Nat) : Nat :=
  let ws1 := if pos ≥ h / 2 then pos - h / 2 else 0
  let max_start := total - h
  if ws1 > max_start then max_start else ws1

/-- `App::center_cursor` (`src/app.rs:227-240`). -/
def App.center_cursor (a : App) : App :=
  { a with
    input_window_start :=
      centerWindow a.cursor.input_index a.cursor.total_inputs
        a.display.max_visible_inputs }

/-- `App::cursor_to_top` (`src/app.rs:243-245`). -/
def App.cursor_to_top (a : App) : App :=
  { a with cursor := a.cursor.jump_to a.input_window_start }

/-- `App::cursor_to_middle` (`src/app.rs:248-251`). -/
def App.cursor_to_middle (a : App) : App :=
  { a with
    cursor := a.cursor.jump_to
      (a.input_window_start + a.display.max_visible_inputs / 2) }

/-- Checked `usize` subtraction: `none` models the arithmetic-overflow panic
of a Rust debug build on underflow. -/
def checkedSub (x y : Nat) : Option Nat :=
  if y ≤ x then some (x - y) else none

/-- Checked `usize` multiplication: `none` models the arithmetic-overflow
panic of a Rust debug build when the product exceeds `usize::MAX = 2^64 - 1`. -/
def checkedMul (x y : Nat) : Option Nat :=
  if x * y ≤ 2 ^ 64 - 1 then some (x * y) else none

/-- The reinterpreting Rust cast `usize as isize` (two's complement): values
up to `isize::MAX = 2^63 - 1` are unchanged, larger ones become negative.
This cast never panics. -/
def usizeAsIsize (n : Nat) : Int :=
  if n ≤ 2 ^ 63 - 1 then (n : Int) else (n : Int) - 2 ^ 64

/-- Checked `isize` negation: for an in-range argument, `-x` overflows (a
debug-build panic) exactly when `x = isize::MIN = -2^63`. -/
def checkedNegIsize (x : Int) : Option Int :=
  if -x ≤ 2 ^ 63 - 1 then some (-x) else none

/-- `App::cursor_to_bottom` (`src/app.rs:254-257`).  The source computes
`(input_window_start + max_visible_inputs - 1).min(total_inputs - 1)` with
two *unchecked* subtractions; the second underflows whenever
`total_inputs = 0`, so the result is an `Option`. -/
def App.cursor_to_bottom (a : App) : Option App :=
  match checkedSub (a.input_window_start + a.display.max_visible_inputs) 1 with
  | none => none
  | some b1 =>
    match checkedSub a.cursor.total_inputs 1 with
    | none => none
    | some b2 => some { a with cursor := a.cursor.jump_to (min b1 b2) }

/-- `App::handle_digit` (`src/app.rs:260-263`): the source computes
`self.number_buffer.unwrap_or(0) * 10 + digit` in *unchecked* `usize`
arithmetic.  The multiply overflows only when the final sum also exceeds
`usize::MAX` (as `digit ≥ 0`), so checking the final value captures exactly
the inputs on which a debug build panics; `none` models that panic.  In
consequence every buffer value reachable through this function is a valid
`usize`. -/
def App.handle_digit (a : App) (digit : Nat) : Option App :=
  if a.number_buffer.getD 0 * 10 + digit ≤ 2 ^ 64 - 1 then
    some { a with number_buffer := some (a.number_buffer.getD 0 * 10 + digit) }
  else none

/-- `App::take_number_buffer` (`src/app.rs:266-270`): the consumed count and
the state with the buffer cleared. -/
def App.take_number_buffer (a : App) : Nat × App :=
  (a.number_buffer.getD 1, { a with number_buffer := none })

/-- Key codes of the `crossterm` events the handlers inspect; every key code
the source never names falls under `other`. -/
inductive KeyCode where
  | char (c : Char)
  | down
  | up
  | pageDown
  | pageUp
  | enter
  | esc
  | backspace
  | other
deriving DecidableEq, Repr

/-- One key event; of the modifier set only `CONTROL` is ever inspected
(`src/app.rs:310-334`). -/
structure KeyEvent where
  code : KeyCode
  ctrl : Bool
deriving DecidableEq, Repr

/-- Body shared by the `j` / `Down` arms (`src/app.rs:298-302`): the source
moves by `count as isize`, a reinterpreting cast, so a count above
`isize::MAX` moves *backwards*. -/
def App.nav_down (a : App) : App :=
  let (count, a1) := a.take_number_buffer
  ({ a1 with cursor := a1.cursor.move_by (usizeAsIsize count) }).update_input_window

/-- Body shared by the `k` / `Up` arms (`src/app.rs:303-307`): the source
moves by `-(count as isize)`; the unchecked `isize` negation overflows (a
debug-build panic, modelled by `none`) exactly when `count = 2^63`. -/
def App.nav_up (a : App) : Option App :=
  let (count, a1) := a.take_number_buffer
  match checkedNegIsize (usizeAsIsize count) with
  | some steps => some (({ a1 with cursor := a1.cursor.move_by steps }).update_input_window)
  | none => none

/-- Body of the page-forward arms (`Ctrl-d` with `page = height/2`, `Ctrl-f` /
`PageDown` with `page = height`; `src/app.rs:310-315,324-329,336-341`): the
source moves by `(page * count) as isize` — an unchecked `usize` product
(`none` models its debug-build overflow panic) reinterpreted as `isize`. -/
def App.nav_page_down (a : App) (page : Nat) : Option App :=
  let (count, a1) := a.take_number_buffer
  match checkedMul page count with
  | some prod =>
    some (({ a1 with cursor := a1.cursor.move_by (usizeAsIsize prod) }).update_input_window)
  | none => none

/-- Body of the page-backward arms (`Ctrl-u`, `Ctrl-b` / `PageUp`;
`src/app.rs:316-321,330-335,342-347`): the source moves by
`-((page * count) as isize)` — the unchecked product, the reinterpreting
cast, then the unchecked `isize` negation, each panic point modelled. -/
def App.nav_page_up (a : App) (page : Nat) : Option App :=
  let (count, a1) := a.take_number_buffer
  match checkedMul page count with
  | some prod =>
    match checkedNegIsize (usizeAsIsize prod) with
    | some steps => some (({ a1 with cursor := a1.cursor.move_by steps }).update_input_window)
    | none => none
  | none => none

/-- Body shared by the `g` / `G` arms (`src/app.rs:350-371`): with a pending
count both jump to `count.saturating_sub(1)`; without one they jump to their
respective default (`0` for `g`, `total_inputs.saturating_sub(1)` for `G`). -/
def App.nav_goto (a : App) (dflt : Nat) : App :=
  match a.number_buffer with
  | some _ =>
    let (line, a1) := a.take_number_buffer
    ({ a1 with cursor := a1.cursor.jump_to (line - 1) }).update_input_window
  | none =>
    ({ a with cursor := a.cursor.jump_to dflt }).update_input_window

/-- `App::handle_normal_key_event` (`src/app.rs:282-411`).  Digits are routed
to the number buffer before the main `match`; the guard structure of the
`Ctrl`-guarded arms is preserved (a guarded character without `CONTROL` falls
through to the wildcard arm, since no later arm matches it). -/
def App.handle_normal_key_event (a : App) (k : KeyEvent) : Option App :=
  match k.code with
  | KeyCode.char c =>
    if c.isDigit then a.handle_digit (c.toNat - 48)
    else if c = 'q' then some { a with exit := true }
    else if c = 'j' then some a.nav_down
    else if c = 'k' then a.nav_up
    else if c = 'd' ∧ k.ctrl then a.nav_page_down (a.display.max_visible_inputs / 2)
    else if c = 'u' ∧ k.ctrl then a.nav_page_up (a.display.max_visible_inputs / 2)
    else if c = 'f' ∧ k.ctrl then a.nav_page_down a.display.max_visible_inputs
    else if c = 'b' ∧ k.ctrl then a.nav_page_up a.display.max_visible_inputs
    else if c = 'g' then some (a.nav_goto 0)
    else if c = 'G' then some (a.nav_goto (a.cursor.total_inputs - 1))
    else if c = 'H' then some a.cursor_to_top
    else if c = 'M' then some a.cursor_to_middle
    else if c = 'L' then a.cursor_to_bottom
    else if c = 'z' then some a.center_cursor
    else if c = ':' then some { a with command_buffer := [], mode := AppMode.command }
    else if c = '?' then some { a with mode := AppMode.help }
    else if c = 'D' then
      some { a with display := { a.display with show_debug := !a.display.show_debug } }
    else some a
  | KeyCode.down => some a.nav_down
  | KeyCode.up => a.nav_up
  | KeyCode.pageDown => a.nav_page_down a.display.max_visible_inputs
  | KeyCode.pageUp => a.nav_page_up a.display.max_visible_inputs
  | KeyCode.esc => some { a with number_buffer := none }
  | _ => some a

/-- `App::handle_input_key_event` (`src/app.rs:413-423`). -/
def App.handle_input_key_event (a : App) (k : KeyEvent) : Option App :=
  match k.code with
  | KeyCode.esc => some { a with mode := AppMode.normal }
  | _ => some a

/-- `App::handle_help_key_event` (`src/app.rs:425-435`). -/
def App.handle_help_key_event (a : App) (k : KeyEvent) : Option App :=
  match k.code with
  | KeyCode.esc => some { a with mode := AppMode.normal }
  | KeyCode.char c =>
    if c = 'q' ∨ c = '?' then some { a with mode := AppMode.normal } else some a
  | _ => some a

/-- Unicode white-space code points, the set recognised by Rust's
`char::is_whitespace` (used by `str::trim`). -/
def rustIsWhitespace (c : Char) : Bool :=
  c.toNat ∈ [0x09, 0x0A, 0x0B, 0x0C, 0x0D, 0x20, 0x85, 0xA0, 0x1680,
    0x2000, 0x2001, 0x2002, 0x2003, 0x2004, 0x2005, 0x2006, 0x2007,
    0x2008, 0x2009, 0x200A, 0x2028, 0x2029, 0x202F, 0x205F, 0x3000]

/-- Rust's `str::trim`: strip white space from both ends. -/
def rustTrim (s : List Char) : List Char :=
  ((s.dropWhile rustIsWhitespace).reverse.dropWhile rustIsWhitespace).reverse

/-- Numeric value of a list of ASCII digits. -/
def digitsToNat (ds : List Char) : Nat :=
  ds.foldl (fun acc c => acc * 10 + (c.toNat - 48)) 0

/-- Rust's `str::parse::<usize>()`: an optional leading `+` followed by at
least one ASCII digit, failing (`none`) when the value exceeds
`usize::MAX = 2^64 - 1`. -/
def parseUsize (s : List Char) : Option Nat :=
  let ds := match s with
    | '+' :: rest => rest
    | _ => s
  if ds ≠ [] ∧ ds.all Char.isDigit then
    let v := digitsToNat ds
    if v ≤ 2 ^ 64 - 1 then some v else none
  else none

/-- `App::execute_command` (`src/app.rs:461-474`): `q` / `quit` set the exit
flag; a parsable `usize` jumps to that 1-indexed line and reconciles the
window; anything else is a no-op; the buffer is cleared in every case. -/
def App.execute_command (a : App) : App :=
  let cmd := rustTrim a.command_buffer
  let a1 :=
    if cmd = ['q'] ∨ cmd = ['q', 'u', 'i', 't'] then { a with exit := true }
    else
      match parseUsize cmd with
      | some line_num =>
        ({ a with cursor := a.cursor.jump_to (line_num - 1) }).update_input_window
      | none => a
  { a1 with command_buffer := [] }

/-- `App::handle_command_key_event` (`src/app.rs:437-458`). -/
def App.handle_command_key_event (a : App) (k : KeyEvent) : Option App :=
  match k.code with
  | KeyCode.enter => some { a.execute_command with mode := AppMode.normal }
  | KeyCode.esc => some { a with command_buffer := [], mode := AppMode.normal }
  | KeyCode.backspace => some { a with command_buffer := a.command_buffer.dropLast }
  | KeyCode.char c => some { a with command_buffer := a.command_buffer ++ [c] }
  | _ => some a

/-- `App::handle_key_event` (`src/app.rs:273-280`): dispatch on the mode. -/
def App.handle_key_event (a : App) (k : KeyEvent) : Option App :=
  match a.mode with
  | AppMode.normal => a.handle_normal_key_event k
  | AppMode.input => a.handle_input_key_event k
  | AppMode.help => a.handle_help_key_event k
  | AppMode.command => a.handle_command_key_event k

/-- Feed a list of key events through `handle_key_event`, stopping at the
first panic. -/
def App.applyKeys : App → List KeyEvent → Option App
  | a, [] => some a
  | a, k :: ks =>
    match a.handle_key_event k with
    | some a1 => a1.applyKeys ks
    | none => none

/-- One cursor operation of the Cursor Model, including the window-relative
repositioning helpers. -/
inductive CursorOp where
  | next
  | prev
  | moveBy (steps : Int)
  | jumpTo (index : Nat)
  | toTop
  | toMiddle
  | toBottom
deriving DecidableEq, Repr

/-- Apply one cursor operation to the application state; `toBottom` is the
one partial operation (see `App.cursor_to_bottom`). -/
def App.applyCursorOp (a : App) : CursorOp → Option App
  | CursorOp.next => some { a with cursor := a.cursor.next }
  | CursorOp.prev => some { a with cursor := a.cursor.prev }
  | CursorOp.moveBy steps => some { a with cursor := a.cursor.move_by steps }
  | CursorOp.jumpTo index => some { a with cursor := a.cursor.jump_to index }
  | CursorOp.toTop => some a.cursor_to_top
  | CursorOp.toMiddle => some a.cursor_to_middle
  | CursorOp.toBottom => a.cursor_to_bottom

/-- Apply a sequence of cursor operations, stopping at the first panic. -/
def App.applyCursorOps : App → List CursorOp → Option App
  | a, [] => some a
  | a, op :: ops =>
    match a.applyCursorOp op with
    | some a1 => a1.applyCursorOps ops
    | none => none

/-- Bytes of an `InputChunk` packet of the given port, if any (the selection
made by the loop body of `collect_port_inputs`). -/
def chunk_bytes (port : Nat) : Packet → Option (List Nat)
  | Packet.inputChunk q ins => if q = port then some ins else none
  | _ => none

/-- Keys the command-line mode treats as pure text edits: printable
characters and backspace. -/
def isEditKey (k : KeyEvent) : Bool :=
  match k.code with
  | KeyCode.char _ => true
  | KeyCode.backspace => true
  | _ => false

/-- Key event for a plain character press. -/
def keyChar (c : Char) : KeyEvent :=
  { code := KeyCode.char c, ctrl := false }

/-- Key event for a `Ctrl`-modified character press. -/
def keyCtrl (c : Char) : KeyEvent :=
  { code := KeyCode.char c, ctrl := true }

/-- Session opened on an empty record stream: `total_inputs = 0`. -/
def emptyApp : App := App.new []

/-- Every Browsing-mode motion key except `L` (which is the panicking one on
an empty stream): line, half-page and full-page motions, `g`, `G`, `H`, `M`
and the centering key `z`. -/
def motionKeys : List KeyEvent :=
  [keyChar 'j', keyChar 'k',
   { code := KeyCode.down, ctrl := false }, { code := KeyCode.up, ctrl := false },
   keyCtrl 'd', keyCtrl 'u', keyCtrl 'f', keyCtrl 'b',
   { code := KeyCode.pageDown, ctrl := false }, { code := KeyCode.pageUp, ctrl := false },
   keyChar 'g', keyChar 'G', keyChar 'H', keyChar 'M', keyChar 'z']

/-- Does a handler result leave the cursor at index 0 and the window at 0? -/
def cursorHomeAfter : Option App → Bool
  | some a => a.cursor.input_index == 0 && a.input_window_start == 0
  | none => false

/-- Session over a stream declaring 100 total frames. -/
def frames100App : App := App.new [Packet.totalFrames 100]

/-- Session over a stream with one five-byte input chunk: `total_inputs = 5`. -/
def chunk5App : App := App.new [Packet.inputChunk 1 [0, 0, 0, 0, 0]]

/-- Sample cursor-operation sequence exercising every kind of operation. -/
def c1DemoOps : List CursorOp :=
  [CursorOp.next, CursorOp.next, CursorOp.toBottom, CursorOp.moveBy (-1),
   CursorOp.jumpTo 99]

/-- State reached by running `c1DemoOps` on `chunk5App`. -/
def c1DemoResult : App :=
  { chunk5App with cursor := { input_index := 4, total_inputs := 5 } }

/-- Command-line mode with `42` typed into the buffer, over 100 inputs. -/
def cmd42App : App :=
  { frames100App with mode := AppMode.command, command_buffer := ['4', '2'] }

/-- Digits of `2^64 = 18446744073709551616`, one past `usize::MAX`. -/
def overflowDigits : List Char :=
  ['1', '8', '4', '4', '6', '7', '4', '4', '0', '7', '3', '7', '0', '9',
   '5', '5', '1', '6', '1', '6']

/-- Command-line mode with the 20-digit literal `2^64` typed into the
buffer, over 5 inputs. -/
def cmdHugeApp : App :=
  { App.new [Packet.totalFrames 5] with
    mode := AppMode.command, command_buffer := overflowDigits }

/-- Two input chunks for port 1 carrying distinguishable bytes. -/
def permDemo1 : List Packet :=
  [Packet.inputChunk 1 [0], Packet.inputChunk 1 [1]]

/-- The same two chunks in the opposite order. -/
def permDemo2 : List Packet :=
  [Packet.inputChunk 1 [1], Packet.inputChunk 1 [0]]

/-- Help-overlay mode over an empty session. -/
def helpApp : App := { emptyApp with mode := AppMode.help }

/-- Is a packet a `TotalFrames` record? -/
def is_total_frames : Packet → Bool
  | Packet.totalFrames _ => true
  | _ => false

/-! ### Helper lemmas about the Cursor Model -/

lemma InputCursor.jump_to_total (c : InputCursor) (i : Nat) :
    (c.jump_to i).total_inputs = c.total_inputs := by
  unfold InputCursor.jump_to
  split_ifs <;> rfl

lemma InputCursor.jump_to_bounds (c : InputCursor) (i : Nat)
    (h : c.input_index ≤ c.total_inputs - 1) :
    (c.jump_to i).input_index ≤ (c.jump_to i).total_inputs - 1 := by
  unfold InputCursor.jump_to
  split_ifs <;> (try simp_all) <;> omega

lemma InputCursor.next_total (c : InputCursor) :
    c.next.total_inputs = c.total_inputs := by
  unfold InputCursor.next
  split_ifs <;> rfl

lemma InputCursor.next_bounds (c : InputCursor)
    (h : c.input_index ≤ c.total_inputs - 1) :
    c.next.input_index ≤ c.next.total_inputs - 1 := by
  unfold InputCursor.next
  split_ifs <;> (try simp_all) <;> omega

lemma InputCursor.prev_total (c : InputCursor) :
    c.prev.total_inputs = c.total_inputs := by
  unfold InputCursor.prev
  split_ifs <;> rfl

lemma InputCursor.prev_bounds (c : InputCursor)
    (h : c.input_index ≤ c.total_inputs - 1) :
    c.prev.input_index ≤ c.prev.total_inputs - 1 := by
  unfold InputCursor.prev
  split_ifs <;> (try simp_all) <;> omega

lemma InputCursor.move_by_total (c : InputCursor) (steps : Int) :
    (c.move_by steps).total_inputs = c.total_inputs := by
  unfold InputCursor.move_by
  split_ifs <;> first | rfl | exact c.jump_to_total _

lemma InputCursor.move_by_bounds (c : InputCursor) (steps : Int)
    (h : c.input_index ≤ c.total_inputs - 1) :
    (c.move_by steps).input_index ≤ (c.move_by steps).total_inputs - 1 := by
  unfold InputCursor.move_by
  split_ifs <;> first | exact h | exact c.jump_to_bounds _ h

lemma App.applyCursorOp_bounds (a a' : App) (op : CursorOp)
    (hinv : a.cursor.input_index ≤ a.cursor.total_inputs - 1)
    (h : a.applyCursorOp op = some a') :
    a'.cursor.input_index ≤ a'.cursor.total_inputs - 1 ∧
    a'.cursor.total_inputs = a.cursor.total_inputs := by
  cases op with
  | next =>
    simp only [App.applyCursorOp, Option.some.injEq] at h
    subst h
    exact ⟨a.cursor.next_bounds hinv, a.cursor.next_total⟩
  | prev =>
    simp only [App.applyCursorOp, Option.some.injEq] at h
    subst h
    exact ⟨a.cursor.prev_bounds hinv, a.cursor.prev_total⟩
  | moveBy steps =>
    simp only [App.applyCursorOp, Option.some.injEq] at h
    subst h
    exact ⟨a.cursor.move_by_bounds steps hinv, a.cursor.move_by_total steps⟩
  | jumpTo index =>
    simp only [App.applyCursorOp, Option.some.injEq] at h
    subst h
    exact ⟨a.cursor.jump_to_bounds index hinv, a.cursor.jump_to_total index⟩
  | toTop =>
    simp only [App.applyCursorOp, App.cursor_to_top, Option.some.injEq] at h
    subst h
    exact ⟨a.cursor.jump_to_bounds _ hinv, a.cursor.jump_to_total _⟩
  | toMiddle =>
    simp only [App.applyCursorOp, App.cursor_to_middle, Option.some.injEq] at h
    subst h
    exact ⟨a.cursor.jump_to_bounds _ hinv, a.cursor.jump_to_total _⟩
  | toBottom =>
    simp only [App.applyCursorOp, App.cursor_to_bottom] at h
    split at h
    · exact absurd h (by simp)
    · split at h
      · exact absurd h (by simp)
      · simp only [Option.some.injEq] at h
        subst h
        exact ⟨a.cursor.jump_to_bounds _ hinv, a.cursor.jump_to_total _⟩

/-- C1: for every starting state whose cursor index is in bounds and every
sequence of cursor operations (`next`, `prev`, `move_by`, `jump_to` and the
window-relative repositioning helpers), any state the run reaches keeps
`input_index` within `[0, max 0 (total_inputs - 1)]` (the lower bound is
the `Nat` type), and `total_inputs` is never changed. -/
theorem cursor_ops_stay_in_bounds (ops : List CursorOp) (a a' : App)
    (hinv : a.cursor.input_index ≤ a.cursor.total_inputs - 1)
    (hrun : a.applyCursorOps ops = some a') :
    a'.cursor.input_index ≤ max 0 (a'.cursor.total_inputs - 1) ∧
    a'.cursor.total_inputs = a.cursor.total_inputs := by
  induction ops generalizing a with
  | nil =>
    simp only [App.applyCursorOps, Option.some.injEq] at hrun
    subst hrun
    exact ⟨le_trans hinv (le_max_right _ _), rfl⟩
  | cons op ops ih =>
    simp only [App.applyCursorOps] at hrun
    cases hstep : a.applyCursorOp op with
    | none => rw [hstep] at hrun; exact absurd hrun (by simp)
    | some a1 =>
      rw [hstep] at hrun
      obtain ⟨h1, h2⟩ := a.applyCursorOp_bounds a1 op hinv hstep
      obtain ⟨h3, h4⟩ := ih a1 h1 hrun
      exact ⟨h3, h4.trans h2⟩

/-- Witness for C1: running `next, next, toBottom, moveBy (-1), jumpTo 99`
on a fresh five-input session ends at index 4. -/
theorem cursor_ops_stay_in_bounds_witness :
    c1DemoResult.cursor.input_index ≤ max 0 (c1DemoResult.cursor.total_inputs - 1) ∧
    c1DemoResult.cursor.total_inputs = chunk5App.cursor.total_inputs :=
  cursor_ops_stay_in_bounds c1DemoOps chunk5App c1DemoResult (by decide) rfl

/-! ### The Viewport Model -/

lemma reconcileWindow_spec (pos total ws h : Nat) (hh : 0 < h)
    (hp : pos ≤ total - 1) :
    (0 < total → reconcileWindow pos total ws h ≤ pos ∧
      pos < reconcileWindow pos total ws h + h) ∧
    reconcileWindow pos total ws h ≤ max 0 (total - h) := by
  simp only [reconcileWindow]
  split_ifs <;> refine ⟨fun ht => ⟨?_, ?_⟩, ?_⟩ <;> omega

/-- C2: whenever the viewport height is positive and the cursor index is in
`[0, max 0 (total - 1)]`, the state after `update_input_window` satisfies
`window_start ≤ position < window_start + height` (for `total > 0`) and
`0 ≤ window_start ≤ max 0 (total - height)`. -/
theorem update_input_window_invariant (a : App)
    (hh : 0 < a.display.max_visible_inputs)
    (hp : a.cursor.input_index ≤ a.cursor.total_inputs - 1) :
    (0 < a.update_input_window.cursor.total_inputs →
      a.update_input_window.input_window_start ≤ a.update_input_window.cursor.input_index ∧
      a.update_input_window.cursor.input_index <
        a.update_input_window.input_window_start +
          a.update_input_window.display.max_visible_inputs) ∧
    a.update_input_window.input_window_start ≤
      max 0 (a.update_input_window.cursor.total_inputs -
        a.update_input_window.display.max_visible_inputs) := by
  have := reconcileWindow_spec a.cursor.input_index a.cursor.total_inputs
    a.input_window_start a.display.max_visible_inputs hh hp
  simpa [App.update_input_window] using this

/-- Witness for C2: the 55-into-100 state with height 20 reconciles to a
window satisfying the invariant. -/
theorem update_input_window_invariant_witness :
    (0 < ({ frames100App with
        cursor := { input_index := 55, total_inputs := 100 } } : App).update_input_window.cursor.total_inputs →
      ({ frames100App with
        cursor := { input_index := 55, total_inputs := 100 } } : App).update_input_window.input_window_start ≤
        ({ frames100App with
          cursor := { input_index := 55, total_inputs := 100 } } : App).update_input_window.cursor.input_index ∧
      ({ frames100App with
        cursor := { input_index := 55, total_inputs := 100 } } : App).update_input_window.cursor.input_index <
        ({ frames100App with
          cursor := { input_index := 55, total_inputs := 100 } } : App).update_input_window.input_window_start +
          ({ frames100App with
            cursor := { input_index := 55, total_inputs := 100 } } : App).update_input_window.display.max_visible_inputs) ∧
    ({ frames100App with
      cursor := { input_index := 55, total_inputs := 100 } } : App).update_input_window.input_window_start ≤
      max 0 (({ frames100App with
        cursor := { input_index := 55, total_inputs := 100 } } : App).update_input_window.cursor.total_inputs -
        ({ frames100App with
          cursor := { input_index := 55, total_inputs := 100 } } : App).update_input_window.display.max_visible_inputs) :=
  update_input_window_invariant
    { frames100App with cursor := { input_index := 55, total_inputs := 100 } }
    (by decide) (by decide)

/-! ### The empty record stream (claim C3) -/

/-- C3 is a code bug: on an empty record stream (`total_inputs = 0`) every
motion key except `L` leaves the cursor at 0 and the window at 0, but `L`
(`cursor_to_bottom`) evaluates the unchecked subtraction
`self.cursor.total_inputs - 1` (`src/app.rs:255`) with `total_inputs = 0`,
an arithmetic underflow that panics in a debug build — so not every motion
key completes without error, contradicting the claim.  Every other
subtraction in the navigation core uses `saturating_sub`, so the claim
matches the evident intent and the code slips. -/
theorem empty_stream_bottom_key_panics :
    emptyApp.handle_key_event { code := KeyCode.char 'L', ctrl := false } = none ∧
    motionKeys.all (fun k => cursorHomeAfter (emptyApp.handle_key_event k)) = true := by
  exact ⟨rfl, by decide⟩

/-! ### Total input count derivation (claim C4) -/

lemma first_total_frames_of_no_tf (l1 l2 : List Packet) (n : Nat)
    (h : ∀ p ∈ l1, is_total_frames p = false) :
    first_total_frames (l1 ++ Packet.totalFrames n :: l2) = some n := by
  induction l1 with
  | nil => rfl
  | cons p l1 ih =>
    have hp := h p (List.mem_cons_self p l1)
    have hrest := fun q hq => h q (List.mem_cons_of_mem p hq)
    cases p <;> simp_all [first_total_frames, is_total_frames]

/-- C4: the derived total input count follows the priority rule with the
first match winning — a present `TotalFrames` record determines the count
regardless of any surrounding records; with no `TotalFrames` record the
count is the maximum over ports 1–4 of the summed `InputChunk` byte lengths
when that maximum is positive; and when that maximum is zero (in particular
when there is no `InputChunk` at all) it is the `InputMoment` count. -/
theorem count_inputs_priority (l l1 l2 : List Packet) (n : Nat) :
    ((∀ p ∈ l1, is_total_frames p = false) →
      count_inputs (l1 ++ Packet.totalFrames n :: l2) = n) ∧
    (first_total_frames l = none → 0 < max_chunk_inputs l →
      count_inputs l = max_chunk_inputs l) ∧
    (first_total_frames l = none → max_chunk_inputs l = 0 →
      count_inputs l = moment_count l) := by
  refine ⟨fun h => ?_, fun h1 h2 => ?_, fun h1 h2 => ?_⟩
  · simp only [count_inputs, first_total_frames_of_no_tf l1 l2 n h]
  · simp only [count_inputs, h1]
    simp [h2]
  · simp only [count_inputs, h1]
    simp [h2]

/-- Witness for C4: a `TotalFrames 7` record outweighs a 3-byte chunk and a
moment; without it the chunk maximum 3 wins; with no data at all the moment
count is used. -/
theorem count_inputs_priority_witness :
    count_inputs [Packet.inputChunk 1 [9, 9, 9], Packet.totalFrames 7,
      Packet.inputMoment 2] = 7 ∧
    count_inputs [Packet.inputChunk 1 [9, 9, 9], Packet.inputMoment 2] =
      max_chunk_inputs [Packet.inputChunk 1 [9, 9, 9], Packet.inputMoment 2] ∧
    count_inputs [Packet.inputMoment 2] = moment_count [Packet.inputMoment 2] :=
  ⟨(count_inputs_priority [] [Packet.inputChunk 1 [9, 9, 9]]
      [Packet.inputMoment 2] 7).1 (by decide),
   (count_inputs_priority [Packet.inputChunk 1 [9, 9, 9], Packet.inputMoment 2]
      [] [] 0).2.1 (by decide) (by decide),
   (count_inputs_priority [Packet.inputMoment 2] [] [] 0).2.2
      (by decide) (by decide)⟩

/-! ### The repeat-count buffer (claim C5) -/

/-- C5 amended: feeding a digit turns the buffer into `old * 10 + d`
(starting from 0 when the buffer is empty) *whenever that value is
`usize`-representable*; the source computes it in unchecked `usize`
arithmetic, so a digit that would push the buffer past
`usize::MAX = 2^64 - 1` overflows instead (a debug-build panic — see the
counterexample).  Consuming the buffer yields the accumulated value — or 1
when no digits were fed — and always clears it; and pressing `5`, `5`, `j`
on a fresh 100-input session moves the cursor forward by exactly 55 (not by
5 twice) and leaves no pending count. -/
theorem repeat_count_buffer_semantics (a : App) (d : Nat)
    (hrep : a.number_buffer.getD 0 * 10 + d ≤ 2 ^ 64 - 1) :
    a.handle_digit d =
      some { a with number_buffer := some (a.number_buffer.getD 0 * 10 + d) } ∧
    (∀ b : App, b.take_number_buffer.1 = b.number_buffer.getD 1 ∧
      b.take_number_buffer.2 = { b with number_buffer := none }) ∧
    (frames100App.applyKeys [keyChar '5', keyChar '5', keyChar 'j']).map
      (fun x => (x.cursor.input_index, x.number_buffer)) = some (55, none) := by
  refine ⟨?_, fun b => ⟨rfl, rfl⟩, by decide⟩
  simp only [App.handle_digit, if_pos hrep]

/-- Witness for C5 (amended): feeding the digit 5 into a buffer holding 5
accumulates to 55. -/
theorem repeat_count_buffer_semantics_witness :
    ({ emptyApp with number_buffer := some 5 } : App).handle_digit 5 =
      some { ({ emptyApp with number_buffer := some 5 } : App) with
             number_buffer := some
               (({ emptyApp with number_buffer := some 5 } : App).number_buffer.getD 0 * 10 + 5) } :=
  (repeat_count_buffer_semantics { emptyApp with number_buffer := some 5 } 5
    (by decide)).1

/-- Counterexample for C5 as frozen: pressing `9` twenty times in Browsing
mode is a reachable digit sequence; the first nineteen presses accumulate to
`9999999999999999999` exactly as claimed, but the claimed value after the
twentieth, `99999999999999999999`, exceeds `usize::MAX = 2^64 - 1`, so the
twentieth press overflows the unchecked `usize` multiply-add of
`handle_digit` (`src/app.rs:262`) — a debug-build panic (a release build
wraps) — instead of storing the accumulated value. -/
theorem handle_digit_overflow_counterexample :
    (emptyApp.applyKeys (List.replicate 19 (keyChar '9'))).map
      (fun x => x.number_buffer) = some (some 9999999999999999999) ∧
    emptyApp.applyKeys (List.replicate 20 (keyChar '9')) = none ∧
    (2 ^ 64 - 1 : Nat) < 99999999999999999999 :=
  ⟨by decide, by decide, by decide⟩

/-! ### Contextual go-to-line keys (claim C6) -/

/-- C6: in Browsing mode, with a pending repeat count `n` both `g` and `G`
consume it and jump to index `n.saturating_sub(1)` — the 1-indexed count
converted to 0-indexed, saturating at 0 for `n = 0` or `n = 1` and clamped
to the last valid index by `jump_to`; with no pending count `g` jumps to
index 0 and `G` to `total_inputs.saturating_sub(1)`; in every case the
viewport is reconciled afterwards. -/
theorem goto_keys_contextual (a : App) (n : Nat) (m : Bool) :
    (a.number_buffer = some n →
      a.handle_normal_key_event { code := KeyCode.char 'g', ctrl := m } =
        some (({ a with
                 number_buffer := none,
                 cursor := a.cursor.jump_to (n - 1) } : App).update_input_window) ∧
      a.handle_normal_key_event { code := KeyCode.char 'G', ctrl := m } =
        some (({ a with
                 number_buffer := none,
                 cursor := a.cursor.jump_to (n - 1) } : App).update_input_window)) ∧
    (a.number_buffer = none →
      a.handle_normal_key_event { code := KeyCode.char 'g', ctrl := m } =
        some (({ a with cursor := a.cursor.jump_to 0 } : App).update_input_window) ∧
      a.handle_normal_key_event { code := KeyCode.char 'G', ctrl := m } =
        some (({ a with
            cursor := a.cursor.jump_to (a.cursor.total_inputs - 1) } : App).update_input_window)) := by
  constructor <;> intro h <;>
    exact ⟨by simp [App.handle_normal_key_event, App.nav_goto, App.take_number_buffer, h],
           by simp [App.handle_normal_key_event, App.nav_goto, App.take_number_buffer, h]⟩

/-- Witness for C6: on the 100-input session, a pending count 3 sends both
`g` and `G` to index 2, and with no pending count `g` goes to 0 while `G`
goes to 99. -/
theorem goto_keys_contextual_witness :
    (({ frames100App with number_buffer := some 3 } : App).handle_normal_key_event
        { code := KeyCode.char 'g', ctrl := false } =
      some (({ ({ frames100App with number_buffer := some 3 } : App) with
               number_buffer := none,
               cursor := ({ frames100App with number_buffer := some 3 } : App).cursor.jump_to (3 - 1) } : App).update_input_window) ∧
     ({ frames100App with number_buffer := some 3 } : App).handle_normal_key_event
        { code := KeyCode.char 'G', ctrl := false } =
      some (({ ({ frames100App with number_buffer := some 3 } : App) with
               number_buffer := none,
               cursor := ({ frames100App with number_buffer := some 3 } : App).cursor.jump_to (3 - 1) } : App).update_input_window)) ∧
    (frames100App.handle_normal_key_event { code := KeyCode.char 'g', ctrl := false } =
      some (({ frames100App with
          cursor := frames100App.cursor.jump_to 0 } : App).update_input_window) ∧
     frames100App.handle_normal_key_event { code := KeyCode.char 'G', ctrl := false } =
      some (({ frames100App with
          cursor := frames100App.cursor.jump_to
            (frames100App.cursor.total_inputs - 1) } : App).update_input_window)) :=
  ⟨(goto_keys_contextual { frames100App with number_buffer := some 3 } 3 false).1 rfl,
   (goto_keys_contextual frames100App 0 false).2 rfl⟩

/-! ### The command-line interpreter (claim C7) -/

/-- C7 amended: the grammar holds for every integer literal representable as
a `usize`.  A trimmed `q` or `quit` sets the exit flag; a buffer whose
trimmed text parses as a `usize` value `N` (so `N ≤ 2^64 - 1`) jumps the
cursor to index `N.saturating_sub(1)` and reconciles the viewport; any other
text — including an integer literal exceeding `usize::MAX`, which `parse`
rejects — changes nothing; in every case the buffer is cleared, and Enter
returns the mode to Browsing.  Typing `42` then Enter lands on index 41. -/
theorem execute_command_grammar (a : App) (n : Nat) (m : Bool) :
    ((rustTrim a.command_buffer = ['q'] ∨
      rustTrim a.command_buffer = ['q', 'u', 'i', 't']) →
      a.execute_command = { a with exit := true, command_buffer := [] }) ∧
    (parseUsize (rustTrim a.command_buffer) = some n →
      a.execute_command =
        { ({ a with cursor := a.cursor.jump_to (n - 1) } : App).update_input_window with
          command_buffer := [] }) ∧
    ((rustTrim a.command_buffer ≠ ['q'] ∧
      rustTrim a.command_buffer ≠ ['q', 'u', 'i', 't'] ∧
      parseUsize (rustTrim a.command_buffer) = none) →
      a.execute_command = { a with command_buffer := [] }) ∧
    a.handle_command_key_event { code := KeyCode.enter, ctrl := m } =
      some { a.execute_command with mode := AppMode.normal } ∧
    (cmd42App.handle_key_event { code := KeyCode.enter, ctrl := false }).map
      (fun x => (x.cursor.input_index, x.mode, x.command_buffer)) =
      some (41, AppMode.normal, []) := by
  refine ⟨fun h => ?_, fun h => ?_, fun h => ?_, rfl, by decide⟩
  · simp only [App.execute_command, if_pos h]
  · have hq : ¬(rustTrim a.command_buffer = ['q'] ∨
        rustTrim a.command_buffer = ['q', 'u', 'i', 't']) := by
      rintro (hc | hc) <;> rw [hc] at h <;> exact Option.noConfusion h
    simp only [App.execute_command, if_neg hq, h]
  · obtain ⟨h1, h2, h3⟩ := h
    have hq : ¬(rustTrim a.command_buffer = ['q'] ∨
        rustTrim a.command_buffer = ['q', 'u', 'i', 't']) := by
      rintro (hc | hc) <;> [exact h1 hc; exact h2 hc]
    simp only [App.execute_command, if_neg hq, h3]

/-- Witness for C7 (amended): the `q` command sets the exit flag, `42`
jumps to index 41, and the unparsable text `xyz` is a no-op — in all cases
with the buffer cleared. -/
theorem execute_command_grammar_witness :
    ({ emptyApp with command_buffer := ['q'] } : App).execute_command =
      { ({ emptyApp with command_buffer := ['q'] } : App) with
        exit := true, command_buffer := [] } ∧
    cmd42App.execute_command =
      { ({ cmd42App with cursor := cmd42App.cursor.jump_to (42 - 1) } : App).update_input_window with
        command_buffer := [] } ∧
    ({ emptyApp with command_buffer := ['x', 'y', 'z'] } : App).execute_command =
      { ({ emptyApp with command_buffer := ['x', 'y', 'z'] } : App) with
        command_buffer := [] } :=
  ⟨(execute_command_grammar { emptyApp with command_buffer := ['q'] } 0 false).1
      (Or.inl (by decide)),
   (execute_command_grammar cmd42App 42 false).2.1 (by decide),
   (execute_command_grammar { emptyApp with command_buffer := ['x', 'y', 'z'] } 0
      false).2.2.1 (by decide)⟩

/-- Counterexample for C7 as frozen: over 5 inputs, the 20-digit literal
`18446744073709551616 = 2^64` is a non-negative integer `N`, and the claimed
`jumpTo(N-1)` would clamp the cursor to the last index 4 — but
`parse::<usize>()` rejects the literal (positive overflow), so Enter falls
into the no-op case and the cursor stays at 0. -/
theorem execute_command_overflow_counterexample :
    (cmdHugeApp.handle_command_key_event { code := KeyCode.enter, ctrl := false }).map
      (fun x => x.cursor.input_index) = some 0 ∧
    (cmdHugeApp.cursor.jump_to (18446744073709551616 - 1)).input_index = 4 := by
  exact ⟨by decide, by decide⟩

/-! ### Port derivation (claim C8) -/

lemma collect_port_inputs_foldl (l : List Packet) (port : Nat) (acc : List Nat) :
    l.foldl
      (fun acc p =>
        match p with
        | Packet.inputChunk q ins => if q = port then acc ++ ins else acc
        | _ => acc)
      acc = acc ++ (l.filterMap (chunk_bytes port)).flatten := by
  induction l generalizing acc with
  | nil => simp
  | cons p l ih =>
    cases p with
    | inputChunk q ins =>
      by_cases hq : q = port <;>
        simp [chunk_bytes, hq, ih, List.append_assoc]
    | inputMoment q => simp [chunk_bytes, ih]
    | portController q => simp [chunk_bytes, ih]
    | totalFrames n => simp [chunk_bytes, ih]
    | other => simp [chunk_bytes, ih]

lemma collect_port_inputs_eq_join (l : List Packet) (port : Nat) :
    collect_port_inputs l port = (l.filterMap (chunk_bytes port)).flatten := by
  simpa using collect_port_inputs_foldl l port []

/-- C8 amended: deriving the port set is permutation-invariant, and the
result is a sorted, deduplicated, non-empty list defaulting to `[1]` when no
port-bearing record exists; a port's input sequence is the concatenation of
that port's chunk payloads in record order, so it is determined by (and only
by) the subsequence of that port's chunks — it is *not* invariant under
arbitrary permutations of the record stream (see the counterexample), only
under those preserving the relative order of the port's chunks. -/
theorem port_derivation_invariance (l1 l2 : List Packet) (port : Nat)
    (hperm : List.Perm l1 l2) :
    detect_ports l1 = detect_ports l2 ∧
    detect_ports l1 ≠ [] ∧
    List.Sorted (· ≤ ·) (detect_ports l1) ∧
    (detect_ports l1).Nodup ∧
    (l1.filterMap packet_port = [] → detect_ports l1 = [1]) ∧
    (l1.filterMap (chunk_bytes port) = l2.filterMap (chunk_bytes port) →
      collect_port_inputs l1 port = collect_port_inputs l2 port) := by
  have hts : (l1.filterMap packet_port).toFinset = (l2.filterMap packet_port).toFinset :=
    List.toFinset_eq_of_perm _ _ (hperm.filterMap packet_port)
  refine ⟨?_, ?_, ?_, ?_, fun hempty => ?_, fun hfm => ?_⟩
  · simp only [detect_ports, hts]
  · simp only [detect_ports]
    split_ifs with hnil
    · simp
    · exact hnil
  · simp only [detect_ports]
    split_ifs
    · exact List.sorted_singleton 1
    · exact Finset.sort_sorted _ _
  · simp only [detect_ports]
    split_ifs
    · exact List.nodup_singleton 1
    · exact Finset.sort_nodup _ _
  · simp [detect_ports, hempty]
  · rw [collect_port_inputs_eq_join, collect_port_inputs_eq_join, hfm]

/-- Witness for C8 (amended): the two-chunk stream and its reversal give the
same port list, and over the unpermuted stream the per-port bytes are
determined by the port's chunk subsequence. -/
theorem port_derivation_invariance_witness :
    detect_ports permDemo1 = detect_ports permDemo2 ∧
    collect_port_inputs permDemo1 1 = collect_port_inputs permDemo1 1 :=
  ⟨(port_derivation_invariance permDemo1 permDemo2 1 (List.Perm.swap _ _ _)).1,
   (port_derivation_invariance permDemo1 permDemo1 1 (List.Perm.refl _)).2.2.2.2.2 rfl⟩

/-- Counterexample for C8 as frozen: swapping two same-port chunks is a
permutation of the record stream, yet the derived port-1 input sequence
changes from `[0, 1]` to `[1, 0]` — concatenation follows record order, so
it is not invariant under arbitrary permutations. -/
theorem collect_port_inputs_not_perm_invariant :
    List.Perm permDemo1 permDemo2 ∧
    collect_port_inputs permDemo1 1 = [0, 1] ∧
    collect_port_inputs permDemo2 1 = [1, 0] ∧
    collect_port_inputs permDemo1 1 ≠ collect_port_inputs permDemo2 1 :=
  ⟨List.Perm.swap _ _ _, rfl, rfl, by decide⟩

/-! ### Help-mode event handling (claim C9) -/

/-- C9: in Help mode, cancel (Esc), quit-help (`q`) and the help key (`?`)
each return the mode to Browsing and every other event is a strict no-op;
in all cases every field other than the mode — cursor, window start, total,
ports, repeat-count buffer, command buffer, exit and debug flags, and the
record stream — is left unchanged (the result is a record update of the
input state touching only `mode`). -/
theorem help_mode_events_pure (a : App) (k : KeyEvent) (h : a.mode = AppMode.help) :
    a.handle_key_event k =
      some { a with mode :=
        if k.code = KeyCode.esc ∨ k.code = KeyCode.char 'q' ∨ k.code = KeyCode.char '?'
        then AppMode.normal else AppMode.help } := by
  obtain ⟨code, ctrl⟩ := k
  simp only [App.handle_key_event, h, App.handle_help_key_event]
  cases code with
  | char c =>
    by_cases hc : c = 'q' ∨ c = '?'
    · simp [hc]
    · have hcond : ¬(KeyCode.char c = KeyCode.esc ∨ KeyCode.char c = KeyCode.char 'q' ∨
          KeyCode.char c = KeyCode.char '?') := by
        simpa using hc
      rw [if_neg hcond, ← h]
      simp [hc]
  | esc => simp
  | down => rw [if_neg (by simp), ← h]
  | up => rw [if_neg (by simp), ← h]
  | pageDown => rw [if_neg (by simp), ← h]
  | pageUp => rw [if_neg (by simp), ← h]
  | enter => rw [if_neg (by simp), ← h]
  | backspace => rw [if_neg (by simp), ← h]
  | other => rw [if_neg (by simp), ← h]

/-- Witness for C9: Esc in Help mode over the empty session returns to
Browsing with no other change. -/
theorem help_mode_events_pure_witness :
    helpApp.handle_key_event { code := KeyCode.esc, ctrl := false } =
      some { helpApp with mode :=
        if (KeyCode.esc = KeyCode.esc ∨ KeyCode.esc = KeyCode.char 'q' ∨
            KeyCode.esc = KeyCode.char '?')
        then AppMode.normal else AppMode.help } :=
  help_mode_events_pure helpApp { code := KeyCode.esc, ctrl := false } rfl

/-! ### Cancelled command-line excursions (claim C10) -/

lemma cmd_edit_run (a : App) (m' : Bool) (ks : List KeyEvent) (b : List Char)
    (hks : ∀ k ∈ ks, isEditKey k = true) :
    ({ a with mode := AppMode.command, command_buffer := b } : App).applyKeys
      (ks ++ [{ code := KeyCode.esc, ctrl := m' }]) =
    some { a with mode := AppMode.normal, command_buffer := [] } := by
  induction ks generalizing b with
  | nil => rfl
  | cons k ks ih =>
    have hk := hks k (List.mem_cons_self k ks)
    have hrest := fun q hq => hks q (List.mem_cons_of_mem k hq)
    obtain ⟨code, ctrl⟩ := k
    cases code with
    | char c => exact ih (b ++ [c]) hrest
    | backspace => exact ih b.dropLast hrest
    | down => exact absurd hk (by simp [isEditKey])
    | up => exact absurd hk (by simp [isEditKey])
    | pageDown => exact absurd hk (by simp [isEditKey])
    | pageUp => exact absurd hk (by simp [isEditKey])
    | enter => exact absurd hk (by simp [isEditKey])
    | esc => exact absurd hk (by simp [isEditKey])
    | other => exact absurd hk (by simp [isEditKey])

/-- C10: from Browsing mode, pressing `:`, then any sequence of printable
characters and backspaces, then Esc, returns to Browsing with cursor,
window start, repeat-count buffer, exit flag, debug flag — every field but
the command buffer — exactly as before `:`, and with the command buffer
empty. -/
theorem command_mode_excursion_atomic (a : App) (ks : List KeyEvent) (m m' : Bool)
    (hmode : a.mode = AppMode.normal)
    (hks : ∀ k ∈ ks, isEditKey k = true) :
    a.applyKeys ({ code := KeyCode.char ':', ctrl := m } ::
      (ks ++ [{ code := KeyCode.esc, ctrl := m' }])) =
    some { a with command_buffer := [] } := by
  have hstep : a.handle_key_event { code := KeyCode.char ':', ctrl := m } =
      some { a with mode := AppMode.command, command_buffer := [] } := by
    simp only [App.handle_key_event, hmode, App.handle_normal_key_event]
    rfl
  simp only [App.applyKeys, hstep]
  rw [cmd_edit_run a m' ks [] hks, ← hmode]

/-- Witness for C10: on the empty session, `:`, `4`, `x`, backspace, Esc is
a round trip back to the pre-`:` state with an empty command buffer. -/
theorem command_mode_excursion_atomic_witness :
    emptyApp.applyKeys ({ code := KeyCode.char ':', ctrl := false } ::
      ([keyChar '4', keyChar 'x', { code := KeyCode.backspace, ctrl := false }] ++
        [{ code := KeyCode.esc, ctrl := false }])) =
    some { emptyApp with command_buffer := [] } :=
  command_mode_excursion_atomic emptyApp
    [keyChar '4', keyChar 'x', { code := KeyCode.backspace, ctrl := false }]
    false false rfl (by decide)
